import Mathlib

/-!
Shallow embedding of src/index.js, a FastMCP server exposing Android
debugging-bridge (adb) commands as tools.  Each tool builds a fixed shell
command line and runs it through the Node child_process exec helper
wrapped by executeCommand.  The embedding models:

  - executeCommand (src/index.js lines 6-20): the exec callback receives
    (error, stdout, stderr); on error the promise rejects with the error,
    otherwise it resolves with stdout (stderr only triggers a warning log).
    Node sets error exactly when the spawn fails or the process exits with
    a non-zero status; no options object is passed, so the timeout option
    keeps the Node default 0, meaning the child is never killed.
  - the five registered tools (server.addTool calls, lines 31-144) with
    their zod parameter schemas and execute bodies.
  - the dispatch performed by the FastMCP framework: a tool call is routed
    by name, its params are checked against the zod schema, and execute
    runs only on successfully parsed arguments (zod strips unknown keys
    and rejects missing fields and out-of-enum values).
-/

namespace AdbMcp

set_option maxRecDepth 8000

/-- Result of the operating system running one child process: either the
spawn itself failed (executable machinery error), or the process ran and
exited with a status code after writing stdout and stderr. -/
inductive ExecOutcome where
  | spawnFailed (message : String)
  | exited (code : Nat) (stdout : String) (stderr : String)
deriving DecidableEq

/-- Node child_process exec semantics for the callback error argument:
error is present exactly when the spawn failed or the exit code is
non-zero; for a non-zero exit its message is Command failed: followed by
the command line and the captured stderr. -/
def execErrorMessage (cmd : String) : ExecOutcome → Option String
  | .spawnFailed m => some m
  | .exited code _ stderr =>
      if code = 0 then none
      else some ("Command failed: " ++ cmd ++ "\n" ++ stderr)

/-- executeCommand (src/index.js lines 6-20): reject with the error when the
callback gets one, otherwise resolve with stdout.  The stderr check on
line 14 only logs a warning and never affects the result. -/
def executeCommand (cmd : String) : ExecOutcome → Except String String
  | .spawnFailed m => .error m
  | .exited code stdout stderr =>
      if code = 0 then .ok stdout
      else .error ("Command failed: " ++ cmd ++ "\n" ++ stderr)

/-- The outcome taxonomy of the specification for one invocation. -/
inductive InvocationResult where
  | success (stdout : String)
  | externalFailure (message : String)
  | timeout
deriving DecidableEq

/-- Whether an invocation result carries the externalFailure tag. -/
def InvocationResult.isExternalFailure : InvocationResult → Bool
  | .externalFailure _ => true
  | _ => false

/-- How the settled promise of executeCommand maps onto the outcome
taxonomy of the specification: a resolution is a Success with the stdout
text, a rejection is an ExternalFailure with the error message. -/
def classify : Except String String → InvocationResult
  | .ok stdout => .success stdout
  | .error m => .externalFailure m

/-- A failed run: the spawn failed or the exit status was non-zero. -/
def ExecOutcome.failed : ExecOutcome → Prop
  | .spawnFailed _ => True
  | .exited code _ _ => code ≠ 0

/-- The timeout option of the exec call on line 8: no options object is
passed, so the Node default 0 applies, and 0 disables the kill timer. -/
def execTimeoutOption : Nat := 0

/-- Node exec semantics: the child is forcibly killed once its running
time reaches the timeout option, except that a timeout option of 0 means
the child is never killed. -/
def execKillsAfter (timeoutOpt runningTimeMs : Nat) : Bool :=
  decide (0 < timeoutOpt) && decide (timeoutOpt ≤ runningTimeMs)

/-- How executeCommand hands its command to the operating system: exec
runs the whole command line through the system shell (sh -c), while an
injection-safe runner would hand the program an explicit argument
vector. -/
inductive Invocation where
  | shell (commandLine : String)
  | argVector (program : String) (args : List String)
deriving DecidableEq

/-- True when the invocation passes its pieces as an argument vector. -/
def Invocation.usesArgVector : Invocation → Bool
  | .shell _ => false
  | .argVector _ _ => true

/-- executeCommand calls exec with the whole command line as one string,
so the mechanism is always a shell invocation. -/
def executeCommandMechanism (cmd : String) : Invocation := .shell cmd

/-- A JSON value of a request parameter, as decoded from the tool call. -/
inductive JsonValue where
  | str (s : String)
  | num (n : Int)
  | bool (b : Bool)
  | null
deriving DecidableEq

/-- One declared parameter of a tool: the zod schemas of this server all
have the shape z.object of fields that are z.enum of string literals. -/
structure EnumField where
  name : String
  allowed : List String
deriving DecidableEq

/-- A z.object schema: the ordered list of declared fields. -/
structure ObjectSchema where
  fields : List EnumField
deriving DecidableEq

/-- A structured validation failure naming the offending field. -/
inductive ValidationError where
  | missingField (field : String)
  | wrongType (field : String)
  | valueNotInEnum (field : String)
deriving DecidableEq

/-- Look a key up among the raw request params. -/
def lookupParam (params : List (String × JsonValue)) (key : String) :
    Option JsonValue :=
  (params.find? (fun p => p.1 = key)).map Prod.snd

/-- Validate one declared enum field against the raw params, as zod does:
the key must be present, hold a string, and the string must be one of the
enumerated literals. -/
def validateField (params : List (String × JsonValue)) (f : EnumField) :
    Except ValidationError (String × String) :=
  match lookupParam params f.name with
  | none => .error (.missingField f.name)
  | some (.str s) =>
      if s ∈ f.allowed then .ok (f.name, s)
      else .error (.valueNotInEnum f.name)
  | some _ => .error (.wrongType f.name)

/-- Validate every declared field in order, stopping at the first
failure; on success the produced arguments are exactly the declared
fields (zod strips keys that are not declared). -/
def validateFields (params : List (String × JsonValue)) :
    List EnumField → Except ValidationError (List (String × String))
  | [] => .ok []
  | f :: fs =>
      match validateField params f with
      | .error e => .error e
      | .ok pair =>
          match validateFields params fs with
          | .error e => .error e
          | .ok rest => .ok (pair :: rest)

/-- zod parse of a request against an object schema. -/
def validate (schema : ObjectSchema) (params : List (String × JsonValue)) :
    Except ValidationError (List (String × String)) :=
  validateFields params schema.fields

/-- Read a validated argument by name, as the destructuring patterns of
the execute bodies do; validation guarantees presence. -/
def getArg (args : List (String × String)) (key : String) : String :=
  ((args.find? (fun p => p.1 = key)).map Prod.snd).getD ""

/-- The wifi_control parameter schema (line 34): state in on, off. -/
def wifiSchema : ObjectSchema := ⟨[⟨"state", ["on", "off"]⟩]⟩

/-- The command line built by wifi_control.execute (lines 38-40). -/
def wifiAdbCommand (state : String) : String :=
  if state = "on" then "adb shell svc wifi enable"
  else "adb shell svc wifi disable"

/-- wifi_control.execute (lines 37-47): await executeCommand, return the
fixed confirmation on success, or the ADB command failed text built from
the error message on rejection.  The second component is the list of
command lines handed to executeCommand during the call. -/
def wifiExecute (state : String) (os : String → ExecOutcome) :
    String × List String :=
  let cmd := wifiAdbCommand state
  ((match executeCommand cmd (os cmd) with
    | .ok _ => "Successfully turned WiFi " ++ state ++ "."
    | .error m => "ADB command failed: " ++ m), [cmd])

/-- The device_list parameter schema (line 54): no fields. -/
def deviceListSchema : ObjectSchema := ⟨[]⟩

/-- device_list.execute (lines 55-63). -/
def deviceListExecute (os : String → ExecOutcome) : String × List String :=
  let cmd := "adb devices"
  ((match executeCommand cmd (os cmd) with
    | .ok output => "Connected devices:\n" ++ output
    | .error m => "ADB command failed: " ++ m), [cmd])

/-- The bt_control parameter schema (line 72): state in on, off. -/
def btSchema : ObjectSchema := ⟨[⟨"state", ["on", "off"]⟩]⟩

/-- The command line built by bt_control.execute (lines 76-78). -/
def btAdbCommand (state : String) : String :=
  if state = "on" then "adb shell svc bluetooth enable"
  else "adb shell svc bluetooth disable"

/-- bt_control.execute (lines 75-85). -/
def btExecute (state : String) (os : String → ExecOutcome) :
    String × List String :=
  let cmd := btAdbCommand state
  ((match executeCommand cmd (os cmd) with
    | .ok _ => "Successfully turned Bluetooth " ++ state ++ "."
    | .error m => "ADB command failed: " ++ m), [cmd])

/-- The enumerated volume_control actions (line 92). -/
def volumeActions : List String := ["increase", "decrease", "mute"]

/-- The volume_control parameter schema (lines 91-93). -/
def volumeSchema : ObjectSchema := ⟨[⟨"action", volumeActions⟩]⟩

/-- The keyeventMap of volume_control.execute (lines 96-100). -/
def volumeKeyeventMap (action : String) : Option Nat :=
  if action = "increase" then some 24
  else if action = "decrease" then some 25
  else if action = "mute" then some 164
  else none

/-- volume_control.execute (lines 94-112).  The lookup result is tested
for JS falsiness (undefined or 0); when falsy, the guarded block first
evaluates the bare identifier f (line 102), which is undefined and throws
a ReferenceError before the return statement runs — modelled as none.
Otherwise the keyevent is interpolated into the command line, and the
success message echoes the action over the words music playback, copied
verbatim from music_control. -/
def volumeExecute (action : String) (os : String → ExecOutcome) :
    Option String × List String :=
  match volumeKeyeventMap action with
  | none => (none, [])
  | some k =>
      if k = 0 then (none, [])
      else
        let cmd := "adb shell input keyevent " ++ toString k
        ((some (match executeCommand cmd (os cmd) with
          | .ok _ =>
              "Successfully performed " ++ action ++
                " action on music playback."
          | .error m => "ADB command failed: " ++ m)), [cmd])

/-- The enumerated music_control actions (line 120). -/
def musicActions : List String :=
  ["play", "pause", "next", "previous", "resume", "stop"]

/-- The music_control parameter schema (lines 119-121). -/
def musicSchema : ObjectSchema := ⟨[⟨"action", musicActions⟩]⟩

/-- The keyeventMap of music_control.execute (lines 124-131). -/
def musicKeyeventMap (action : String) : Option Nat :=
  if action = "play" then some 126
  else if action = "pause" then some 127
  else if action = "next" then some 87
  else if action = "previous" then some 88
  else if action = "resume" then some 126
  else if action = "stop" then some 86
  else none

/-- music_control.execute (lines 122-143), with the same falsy guard and
undefined identifier f (line 133) as volume_control. -/
def musicExecute (action : String) (os : String → ExecOutcome) :
    Option String × List String :=
  match musicKeyeventMap action with
  | none => (none, [])
  | some k =>
      if k = 0 then (none, [])
      else
        let cmd := "adb shell input keyevent " ++ toString k
        ((some (match executeCommand cmd (os cmd) with
          | .ok _ =>
              "Successfully performed " ++ action ++
                " action on music playback."
          | .error m => "ADB command failed: " ++ m)), [cmd])

/-- A registered tool: its advertised name, its zod parameter schema, and
its execute body lifted to validated arguments.  The run result is none
when the body throws (the unreachable undefined-identifier branches). -/
structure Tool where
  name : String
  schema : ObjectSchema
  run : List (String × String) → (String → ExecOutcome) →
    Option String × List String

/-- The wifi_control registration (lines 31-48). -/
def wifiTool : Tool :=
  ⟨"wifi_control", wifiSchema, fun args os =>
    let r := wifiExecute (getArg args "state") os
    (some r.1, r.2)⟩

/-- The device_list registration (lines 51-64). -/
def deviceListTool : Tool :=
  ⟨"device_list", deviceListSchema, fun _ os =>
    let r := deviceListExecute os
    (some r.1, r.2)⟩

/-- The bt_control registration (lines 69-86). -/
def btTool : Tool :=
  ⟨"bt_control", btSchema, fun args os =>
    let r := btExecute (getArg args "state") os
    (some r.1, r.2)⟩

/-- The volume_control registration (lines 88-113). -/
def volumeTool : Tool :=
  ⟨"volume_control", volumeSchema, fun args os =>
    volumeExecute (getArg args "action") os⟩

/-- The music_control registration (lines 116-144). -/
def musicTool : Tool :=
  ⟨"music_control", musicSchema, fun args os =>
    musicExecute (getArg args "action") os⟩

/-- The complete registry: exactly the five server.addTool calls of
src/index.js, fixed at module load. -/
def tools : List Tool := [wifiTool, deviceListTool, btTool, volumeTool, musicTool]

/-- The advertised command names, in registration order. -/
def registryNames : List String := tools.map Tool.name

/-- Registry lookup by tool name, as the framework dispatches a call. -/
def lookupTool (name : String) : Option Tool :=
  tools.find? (fun t => t.name = name)

/-- The response of one tool call as seen by the client. -/
inductive Response where
  | unknownTool
  | invalidParams (e : ValidationError)
  | reply (text : String)
  | crashed
deriving DecidableEq

/-- The request pipeline of the framework around the registered tools:
look the tool up by name, validate the params against its schema, and
only on success run its execute body.  The second component records every
command line handed to executeCommand while serving the request. -/
def handleRequest (name : String) (params : List (String × JsonValue))
    (os : String → ExecOutcome) : Response × List String :=
  match lookupTool name with
  | none => (.unknownTool, [])
  | some t =>
      match validate t.schema params with
      | .error e => (.invalidParams e, [])
      | .ok args =>
          match t.run args os with
          | (none, invoked) => (.crashed, invoked)
          | (some text, invoked) => (.reply text, invoked)

/-- Whether an invocation result carries the timeout tag. -/
def InvocationResult.isTimeout : InvocationResult → Bool
  | .timeout => true
  | _ => false

/-- Whether the second list is a contiguous run at the head of the first. -/
def startsWithL : List Char → List Char → Bool
  | _, [] => true
  | [], _ :: _ => false
  | a :: as, b :: bs => a = b && startsWithL as bs

/-- Whether the second list occurs contiguously anywhere in the first. -/
def hasSubL : List Char → List Char → Bool
  | [], needle => startsWithL [] needle
  | h :: t, needle => startsWithL (h :: t) needle || hasSubL t needle

/-- Whether the needle string occurs contiguously inside the hay string. -/
def strHasSub (hay needle : String) : Bool :=
  hasSubL hay.toList needle.toList

/-- Characters the POSIX shell treats specially in a command word. -/
def shellMetaChars : List Char :=
  [';', '&', '|', '$', '(', ')', '<', '>', '*', '?', '~',
   Char.ofNat 96, Char.ofNat 39, Char.ofNat 34, Char.ofNat 92, '\n']

/-- A command line free of shell metacharacters. -/
def isShellMetaFree (s : String) : Bool :=
  s.toList.all (fun c => decide (c ∉ shellMetaChars))

/-- Every command line the five execute bodies can ever hand to
executeCommand: two wifi forms, the device listing, two bluetooth forms,
and the eight keyevent lines of the two keyevent maps. -/
def reachableCommands : List String :=
  ["adb shell svc wifi enable", "adb shell svc wifi disable",
   "adb devices",
   "adb shell svc bluetooth enable", "adb shell svc bluetooth disable",
   "adb shell input keyevent 24", "adb shell input keyevent 25",
   "adb shell input keyevent 164",
   "adb shell input keyevent 126", "adb shell input keyevent 127",
   "adb shell input keyevent 87", "adb shell input keyevent 88",
   "adb shell input keyevent 86"]

theorem volumeKeyeventMap_some (a : String) (k : Nat)
    (h : volumeKeyeventMap a = some k) : k = 24 ∨ k = 25 ∨ k = 164 := by
  unfold volumeKeyeventMap at h
  split_ifs at h <;> simp_all

theorem musicKeyeventMap_some (a : String) (k : Nat)
    (h : musicKeyeventMap a = some k) :
    k = 126 ∨ k = 127 ∨ k = 87 ∨ k = 88 ∨ k = 86 := by
  unfold musicKeyeventMap at h
  split_ifs at h <;> simp_all

/-- Claim C2 counterexample: the exec call of executeCommand passes no
timeout option, so the Node default 0 applies and the child is not killed
even after an hour of running time; and whatever way the child finally
settles, the result classification is never Timeout.  This contradicts
the claim that a command exceeding its timeout budget is forcibly
terminated and reported as Timeout. -/
theorem c2_no_timeout_counterexample :
    execTimeoutOption = 0 ∧
    execKillsAfter execTimeoutOption 3600000 = false ∧
    (classify (executeCommand "adb devices"
      (.exited 0 "List of devices attached\n" ""))).isTimeout = false ∧
    (classify (executeCommand "adb devices"
      (.exited 1 "" "error"))).isTimeout = false ∧
    (classify (executeCommand "adb devices"
      (.spawnFailed "spawn error"))).isTimeout = false := by
  decide

/-- Claim C2 (amended): executeCommand invokes exec with no timeout
option, so the child process is never forcibly terminated no matter how
long it runs, and no invocation result ever carries the Timeout outcome;
a hanging external command therefore blocks its request indefinitely. -/
theorem c2_no_timeout_mechanism :
    (∀ runningTimeMs : Nat,
      execKillsAfter execTimeoutOption runningTimeMs = false) ∧
    (∀ (cmd : String) (o : ExecOutcome),
      (classify (executeCommand cmd o)).isTimeout = false) := by
  constructor
  · intro t
    rfl
  · intro cmd o
    cases o with
    | spawnFailed m => rfl
    | exited code stdout stderr =>
        by_cases hc : code = 0 <;>
          simp [executeCommand, hc, classify, InvocationResult.isTimeout]

/-- Claim C3: a zero exit status yields Success carrying the captured
stdout, whatever was written to stderr; and the result is ExternalFailure
exactly when the run failed, that is when the spawn threw or the exit
status was non-zero. -/
theorem c3_exit_status_classification (cmd : String) (o : ExecOutcome) :
    (∀ stdout stderr, o = ExecOutcome.exited 0 stdout stderr →
      classify (executeCommand cmd o) = .success stdout) ∧
    ((∃ m, classify (executeCommand cmd o) = .externalFailure m) ↔
      o.failed) := by
  cases o with
  | spawnFailed m =>
      refine ⟨fun stdout stderr h => (nomatch h), ?_⟩
      simp [executeCommand, classify, ExecOutcome.failed]
  | exited code stdout stderr =>
      constructor
      · intro out err h
        cases h
        rfl
      · unfold executeCommand
        by_cases hc : code = 0 <;>
          simp [hc, classify, ExecOutcome.failed]

/-- Claim C3 witness: exit status 0 with a warning on stderr is still a
Success carrying the stdout text. -/
theorem c3_witness :
    classify (executeCommand "adb devices"
        (ExecOutcome.exited 0 "List of devices attached\n" "adb: warning")) =
      InvocationResult.success "List of devices attached\n" :=
  (c3_exit_status_classification "adb devices"
    (ExecOutcome.exited 0 "List of devices attached\n" "adb: warning")).1
    "List of devices attached\n" "adb: warning" rfl

/-- Claim C8 counterexample: on identical external outcomes, the play and
resume calls return different texts (each echoes its own action word), so
the two calls are not behaviourally equivalent as full tool calls. -/
theorem c8_counterexample :
    (musicExecute "play" (fun _ => .exited 0 "" "")).1 ≠
      (musicExecute "resume" (fun _ => .exited 0 "" "")).1 := by
  decide

/-- Claim C8 (amended): music_control maps play and resume to the same
keyevent code 126, so the constructed external invocation command lines
are identical (adb shell input keyevent 126) and the two calls hand the
external process the same invocations; they differ only in the returned
confirmation text, which echoes the action name. -/
theorem c8_play_resume_same_invocation :
    musicKeyeventMap "play" = some 126 ∧
    musicKeyeventMap "resume" = some 126 ∧
    ∀ os : String → ExecOutcome,
      (musicExecute "play" os).2 = (musicExecute "resume" os).2 ∧
      (musicExecute "play" os).2 = ["adb shell input keyevent 126"] := by
  refine ⟨rfl, rfl, fun os => ⟨rfl, rfl⟩⟩

/-- Claim C9: for every action admitted by the volume_control schema, a
successful run returns the fixed text Successfully performed (action)
action on music playback. — wording that speaks of music playback, not
volume — and the text is the same whatever stdout the invocation
captured, so no captured output appears in it. -/
theorem c9_volume_success_text (action : String)
    (h : action ∈ volumeActions) (stdout stderr : String) :
    (volumeExecute action (fun _ => .exited 0 stdout stderr)).1 =
      some ("Successfully performed " ++ action ++
        " action on music playback.") := by
  have h3 : action = "increase" ∨ action = "decrease" ∨ action = "mute" := by
    simpa [volumeActions] using h
  rcases h3 with rfl | rfl | rfl <;> rfl

/-- Claim C9 witness: the mute action with captured output CAPTURED-OUT
returns the fixed music-playback text, which does not contain the
captured output. -/
theorem c9_witness :
    (volumeExecute "mute" (fun _ => .exited 0 "CAPTURED-OUT" "")).1 =
      some "Successfully performed mute action on music playback." :=
  c9_volume_success_text "mute" (by decide) "CAPTURED-OUT" ""

/-- Claim C10: every action admitted by the volume_control or
music_control schema maps to a defined, non-zero (hence JS-truthy)
keyevent, so the falsy-guarded fallback — whose body would evaluate the
undefined identifier f and throw — is unreachable: the execute bodies
never crash on validated input. -/
theorem c10_fallback_unreachable :
    (∀ a ∈ volumeActions, ∃ k, volumeKeyeventMap a = some k ∧ 0 < k) ∧
    (∀ a ∈ musicActions, ∃ k, musicKeyeventMap a = some k ∧ 0 < k) ∧
    (∀ a ∈ volumeActions, ∀ os : String → ExecOutcome,
      ((volumeExecute a os).1).isSome = true) ∧
    (∀ a ∈ musicActions, ∀ os : String → ExecOutcome,
      ((musicExecute a os).1).isSome = true) := by
  refine ⟨?_, ?_, ?_, ?_⟩
  · intro a ha
    have h3 : a = "increase" ∨ a = "decrease" ∨ a = "mute" := by
      simpa [volumeActions] using ha
    rcases h3 with rfl | rfl | rfl <;> exact ⟨_, rfl, by decide⟩
  · intro a ha
    have h6 : a = "play" ∨ a = "pause" ∨ a = "next" ∨ a = "previous" ∨
        a = "resume" ∨ a = "stop" := by
      simpa [musicActions] using ha
    rcases h6 with rfl | rfl | rfl | rfl | rfl | rfl <;>
      exact ⟨_, rfl, by decide⟩
  · intro a ha os
    have h3 : a = "increase" ∨ a = "decrease" ∨ a = "mute" := by
      simpa [volumeActions] using ha
    rcases h3 with rfl | rfl | rfl <;> rfl
  · intro a ha os
    have h6 : a = "play" ∨ a = "pause" ∨ a = "next" ∨ a = "previous" ∨
        a = "resume" ∨ a = "stop" := by
      simpa [musicActions] using ha
    rcases h6 with rfl | rfl | rfl | rfl | rfl | rfl <;> rfl

/-- Claim C10 witness: concrete admitted actions never hit the crash
branch, whatever the external outcome. -/
theorem c10_witness :
    ((volumeExecute "mute" (fun _ => .exited 0 "" "")).1).isSome = true ∧
    ((musicExecute "stop" (fun _ => .exited 1 "" "err")).1).isSome = true :=
  ⟨c10_fallback_unreachable.2.2.1 "mute" (by decide) _,
   c10_fallback_unreachable.2.2.2 "stop" (by decide) _⟩

/-- Claim C5 counterexample: with captured output WIFIOUT123, the
wifi-on call does invoke the wifi-enable command line, but its returned
text is the fixed confirmation Successfully turned WiFi on., which does
not contain the captured output anywhere. -/
theorem c5_counterexample :
    (wifiExecute "on" (fun _ => .exited 0 "WIFIOUT123" "")).1 =
      "Successfully turned WiFi on." ∧
    (wifiExecute "on" (fun _ => .exited 0 "WIFIOUT123" "")).2 =
      ["adb shell svc wifi enable"] ∧
    strHasSub "Successfully turned WiFi on." "WIFIOUT123" = false := by
  decide

/-- Claim C5 (amended): a wifi_control request with state on invokes
exactly the command line adb shell svc wifi enable and, on a zero exit
status, replies with the fixed confirmation Successfully turned WiFi on.;
the captured output of the invocation is discarded and does not appear in
the reply. -/
theorem c5_wifi_on_fixed_confirmation (stdout stderr : String) :
    handleRequest "wifi_control" [("state", JsonValue.str "on")]
        (fun _ => .exited 0 stdout stderr) =
      (Response.reply "Successfully turned WiFi on.",
        ["adb shell svc wifi enable"]) := by
  rfl

/-- Claim C7 counterexample: a bridge-absent run (the shell exits 127
with adb not found on stderr) and a device-unavailable run (adb exits 1
with no devices on stderr) are both classified with the one
externalFailure tag, and the two replies share the identical uniform
leading text ADB command failed: — the code has no CollaboratorNotFound
classification distinct from a DeviceUnavailable one. -/
theorem c7_counterexample :
    (classify (executeCommand "adb shell svc wifi enable"
      (.exited 127 "" "sh: 1: adb: not found"))).isExternalFailure = true ∧
    (classify (executeCommand "adb shell svc wifi enable"
      (.exited 1 "" "adb: no devices/emulators found"))).isExternalFailure =
      true ∧
    ((wifiExecute "on"
      (fun _ => .exited 127 "" "sh: 1: adb: not found")).1).take 19 =
      ((wifiExecute "on"
        (fun _ => .exited 1 "" "adb: no devices/emulators found")).1).take 19 ∧
    ((wifiExecute "on"
      (fun _ => .exited 127 "" "sh: 1: adb: not found")).1).take 19 =
      "ADB command failed:" := by
  decide

/-- Claim C7 (amended): every failing invocation, whether the bridge
executable is absent or a device is missing, is reported through the one
uniform catch branch as the text ADB command failed: followed by the exec
error message; the code defines no distinct CollaboratorNotFound or
DeviceUnavailable classification. -/
theorem c7_uniform_failure_text (state : String)
    (os : String → ExecOutcome) (m : String)
    (h : executeCommand (wifiAdbCommand state) (os (wifiAdbCommand state)) =
      .error m) :
    (wifiExecute state os).1 = "ADB command failed: " ++ m := by
  simp [wifiExecute, h]

/-- Claim C7 witness: the bridge-absent outcome produces the uniform ADB
command failed text built from the exec error message. -/
theorem c7_witness :
    (wifiExecute "on"
        (fun _ => .exited 127 "" "sh: 1: adb: not found")).1 =
      "ADB command failed: " ++
        "Command failed: adb shell svc wifi enable\nsh: 1: adb: not found" :=
  c7_uniform_failure_text "on"
    (fun _ => .exited 127 "" "sh: 1: adb: not found")
    "Command failed: adb shell svc wifi enable\nsh: 1: adb: not found" rfl

/-- Claim C6 counterexample: the registry holds exactly the five names
wifi_control, device_list, bt_control, volume_control and music_control;
lookup fails for every tap, swipe, type-text, settings, sensor or torch
command, so the registered set is not the stated superset. -/
theorem c6_counterexample :
    registryNames = ["wifi_control", "device_list", "bt_control",
      "volume_control", "music_control"] ∧
    (lookupTool "tap").isSome = false ∧
    (lookupTool "swipe").isSome = false ∧
    (lookupTool "type_text").isSome = false ∧
    (lookupTool "get_setting").isSome = false ∧
    (lookupTool "set_setting").isSome = false ∧
    (lookupTool "sensor_read").isSome = false ∧
    (lookupTool "torch_toggle").isSome = false := by
  refine ⟨rfl, rfl, rfl, rfl, rfl, rfl, rfl, rfl⟩

/-- Claim C6 (amended): the registry is fixed at module load and lookup
succeeds exactly for the five registered names wifi_control, device_list,
bt_control, volume_control and music_control; tap, swipe, type-text,
system settings, sensor read and torch toggle are not registered. -/
theorem c6_registry_exactly_five (name : String) :
    (lookupTool name).isSome = true ↔
      name ∈ ["wifi_control", "device_list", "bt_control",
        "volume_control", "music_control"] := by
  rw [lookupTool, List.find?_isSome]
  simp only [tools, wifiTool, deviceListTool, btTool, volumeTool, musicTool,
    List.mem_cons, List.not_mem_nil]
  constructor
  · rintro ⟨t, ht, hp⟩
    rcases ht with rfl | rfl | rfl | rfl | rfl | h
    · exact Or.inl (by simpa [eq_comm] using hp)
    · exact Or.inr (Or.inl (by simpa [eq_comm] using hp))
    · exact Or.inr (Or.inr (Or.inl (by simpa [eq_comm] using hp)))
    · exact Or.inr (Or.inr (Or.inr (Or.inl (by simpa [eq_comm] using hp))))
    · exact Or.inr (Or.inr (Or.inr (Or.inr (Or.inl
        (by simpa [eq_comm] using hp)))))
    · cases h
  · rintro (rfl | rfl | rfl | rfl | rfl | h)
    · exact ⟨wifiTool, Or.inl rfl, by simp [wifiTool]⟩
    · exact ⟨deviceListTool, Or.inr (Or.inl rfl), by simp [deviceListTool]⟩
    · exact ⟨btTool, Or.inr (Or.inr (Or.inl rfl)), by simp [btTool]⟩
    · exact ⟨volumeTool, Or.inr (Or.inr (Or.inr (Or.inl rfl))),
        by simp [volumeTool]⟩
    · exact ⟨musicTool, Or.inr (Or.inr (Or.inr (Or.inr (Or.inl rfl)))),
        by simp [musicTool]⟩
    · cases h

theorem validateField_ok (params : List (String × JsonValue))
    (f : EnumField) (pr : String × String)
    (h : validateField params f = .ok pr) :
    pr.1 = f.name ∧ pr.2 ∈ f.allowed := by
  unfold validateField at h
  cases hl : lookupParam params f.name with
  | none => rw [hl] at h; cases h
  | some v =>
      rw [hl] at h
      cases v with
      | str s =>
          by_cases hs : s ∈ f.allowed
          · simp only [hs, if_pos] at h
            cases h
            exact ⟨rfl, hs⟩
          · simp only [hs, if_neg, not_false_iff] at h
            cases h
      | num n => cases h
      | bool b => cases h
      | null => cases h

theorem validateFields_ok_spec (params : List (String × JsonValue)) :
    ∀ (fs : List EnumField) (args : List (String × String)),
      validateFields params fs = .ok args →
      args.map Prod.fst = fs.map EnumField.name ∧
      ∀ pr ∈ args, ∃ f ∈ fs, f.name = pr.1 ∧ pr.2 ∈ f.allowed := by
  intro fs
  induction fs with
  | nil =>
      intro args h
      cases h
      simp
  | cons f fs ih =>
      intro args h
      unfold validateFields at h
      cases hf : validateField params f with
      | error e => rw [hf] at h; cases h
      | ok pair =>
          rw [hf] at h
          cases hrest : validateFields params fs with
          | error e => rw [hrest] at h; cases h
          | ok rest =>
              rw [hrest] at h
              cases h
              have hp := validateField_ok params f pair hf
              have hr := ih rest hrest
              constructor
              · simp [hp.1, hr.1]
              · intro pr hpr
                rcases List.mem_cons.mp hpr with rfl | hmem
                · exact ⟨f, List.mem_cons_self f fs, hp.1.symm, hp.2⟩
                · rcases hr.2 pr hmem with ⟨g, hg, hgn, hga⟩
                  exact ⟨g, List.mem_cons_of_mem f hg, hgn, hga⟩

/-- Claim C4: zod validation returns exactly the declared fields with
enum-typed values on success; a missing required field is reported as a
ValidationError naming it (every schema of this server declares at most
one field); the out-of-enum value loud for volume_control is rejected
naming the action field; and whenever validation fails, the request is
answered without handing any command line to executeCommand. -/
theorem c4_validation :
    (∀ (schema : ObjectSchema) (params : List (String × JsonValue))
        (args : List (String × String)),
      validate schema params = .ok args →
      args.map Prod.fst = schema.fields.map EnumField.name ∧
      ∀ pr ∈ args, ∃ f ∈ schema.fields, f.name = pr.1 ∧ pr.2 ∈ f.allowed) ∧
    (∀ (f : EnumField) (params : List (String × JsonValue)),
      lookupParam params f.name = none →
      validate ⟨[f]⟩ params = .error (.missingField f.name)) ∧
    validate volumeSchema [("action", JsonValue.str "loud")] =
      .error (.valueNotInEnum "action") ∧
    (∀ (name : String) (params : List (String × JsonValue))
        (os : String → ExecOutcome) (e : ValidationError),
      (handleRequest name params os).1 = .invalidParams e →
      (handleRequest name params os).2 = []) := by
  refine ⟨?_, ?_, rfl, ?_⟩
  · intro schema params args h
    exact validateFields_ok_spec params schema.fields args h
  · intro f params h
    unfold validate validateFields validateField
    rw [h]
  · intro name params os e h
    unfold handleRequest at h ⊢
    cases hl : lookupTool name with
    | none => rfl
    | some t =>
        rw [hl] at h
        dsimp only at h ⊢
        cases hv : validate t.schema params with
        | error e0 => rfl
        | ok args =>
            rw [hv] at h
            dsimp only at h ⊢
            cases hr : t.run args os with
            | mk o invoked =>
                rw [hr] at h
                cases o <;> simp at h

/-- Claim C4 witness: a valid volume_control request yields exactly the
declared action field with an enum value; an empty parameter set is
rejected naming the missing action field; and the out-of-enum request
with action loud is answered without invoking any command. -/
theorem c4_witness :
    ([("action", "mute")].map Prod.fst =
        volumeSchema.fields.map EnumField.name ∧
      ∀ pr ∈ [("action", "mute")], ∃ f ∈ volumeSchema.fields,
        f.name = pr.1 ∧ pr.2 ∈ f.allowed) ∧
    validate ⟨[⟨"action", volumeActions⟩]⟩ [] =
      .error (.missingField "action") ∧
    (handleRequest "volume_control" [("action", JsonValue.str "loud")]
      (fun _ => .exited 0 "" "")).2 = [] :=
  ⟨c4_validation.1 volumeSchema [("action", JsonValue.str "mute")]
      [("action", "mute")] rfl,
   c4_validation.2.1 ⟨"action", volumeActions⟩ [] rfl,
   c4_validation.2.2.2 "volume_control" [("action", JsonValue.str "loud")]
      (fun _ => .exited 0 "" "") (ValidationError.valueNotInEnum "action") rfl⟩

theorem handleRequest_invoked (name : String)
    (params : List (String × JsonValue)) (os : String → ExecOutcome) :
    (handleRequest name params os).2 = [] ∨
    ∃ t args, lookupTool name = some t ∧
      validate t.schema params = .ok args ∧
      (handleRequest name params os).2 = (t.run args os).2 := by
  unfold handleRequest
  cases hl : lookupTool name with
  | none => exact Or.inl rfl
  | some t =>
      dsimp only
      cases hv : validate t.schema params with
      | error e => exact Or.inl rfl
      | ok args =>
          dsimp only
          refine Or.inr ⟨t, args, rfl, hv, ?_⟩
          cases hr : t.run args os with
          | mk o invoked => cases o <;> simp

theorem wifiRun_sub (args : List (String × String))
    (os : String → ExecOutcome) :
    ∀ c ∈ (wifiTool.run args os).2,
      c ∈ reachableCommands ∧ isShellMetaFree c = true := by
  intro c hc
  simp only [wifiTool, wifiExecute] at hc
  rcases List.mem_singleton.mp hc with rfl
  by_cases hs : getArg args "state" = "on" <;>
    simp [wifiAdbCommand, hs] <;> decide

theorem deviceListRun_sub (args : List (String × String))
    (os : String → ExecOutcome) :
    ∀ c ∈ (deviceListTool.run args os).2,
      c ∈ reachableCommands ∧ isShellMetaFree c = true := by
  intro c hc
  simp only [deviceListTool, deviceListExecute] at hc
  rcases List.mem_singleton.mp hc with rfl
  decide

theorem btRun_sub (args : List (String × String))
    (os : String → ExecOutcome) :
    ∀ c ∈ (btTool.run args os).2,
      c ∈ reachableCommands ∧ isShellMetaFree c = true := by
  intro c hc
  simp only [btTool, btExecute] at hc
  rcases List.mem_singleton.mp hc with rfl
  by_cases hs : getArg args "state" = "on" <;>
    simp [btAdbCommand, hs] <;> decide

theorem volumeRun_sub (args : List (String × String))
    (os : String → ExecOutcome) :
    ∀ c ∈ (volumeTool.run args os).2,
      c ∈ reachableCommands ∧ isShellMetaFree c = true := by
  intro c hc
  simp only [volumeTool] at hc
  unfold volumeExecute at hc
  cases hk : volumeKeyeventMap (getArg args "action") with
  | none => rw [hk] at hc; simp at hc
  | some k =>
      rw [hk] at hc
      rcases volumeKeyeventMap_some _ k hk with rfl | rfl | rfl <;>
        simp at hc <;> subst hc <;> decide

theorem musicRun_sub (args : List (String × String))
    (os : String → ExecOutcome) :
    ∀ c ∈ (musicTool.run args os).2,
      c ∈ reachableCommands ∧ isShellMetaFree c = true := by
  intro c hc
  simp only [musicTool] at hc
  unfold musicExecute at hc
  cases hk : musicKeyeventMap (getArg args "action") with
  | none => rw [hk] at hc; simp at hc
  | some k =>
      rw [hk] at hc
      rcases musicKeyeventMap_some _ k hk with rfl | rfl | rfl | rfl | rfl <;>
        simp at hc <;> subst hc <;> decide

/-- Claim C1 counterexample: the volume_control request with action
increase hands executeCommand the single command line adb shell input
keyevent 24, built by string concatenation, and executeCommand gives it
to exec, which runs it through the system shell — a shell invocation, not
an argument vector with the parameter as one discrete argument. -/
theorem c1_counterexample :
    (handleRequest "volume_control" [("action", JsonValue.str "increase")]
      (fun _ => .exited 0 "" "")).2 = ["adb shell input keyevent 24"] ∧
    executeCommandMechanism "adb shell input keyevent 24" =
      Invocation.shell "adb shell input keyevent 24" ∧
    (executeCommandMechanism "adb shell input keyevent 24").usesArgVector =
      false := by
  refine ⟨rfl, rfl, rfl⟩

/-- Claim C1 (amended): every command line any request can hand to
executeCommand belongs to a fixed finite set of thirteen literal strings,
none of which contains a shell metacharacter — the enum validation keeps
every request-supplied string out of the command line, so a parameter
cannot alter the invoked command or spawn additional processes — but the
mechanism is a shell command string handed to exec, not an argument
vector. -/
theorem c1_fixed_shell_commands (name : String)
    (params : List (String × JsonValue)) (os : String → ExecOutcome)
    (cmd : String) (h : cmd ∈ (handleRequest name params os).2) :
    cmd ∈ reachableCommands ∧ isShellMetaFree cmd = true ∧
      executeCommandMechanism cmd = Invocation.shell cmd := by
  rcases handleRequest_invoked name params os with he | ⟨t, args, hl, hv, he⟩
  · rw [he] at h
    cases h
  · rw [he] at h
    have ht : t ∈ tools :=
      List.mem_of_find?_eq_some (by simpa [lookupTool] using hl)
    have hsub : cmd ∈ reachableCommands ∧ isShellMetaFree cmd = true := by
      simp only [tools, List.mem_cons, List.not_mem_nil, or_false] at ht
      rcases ht with rfl | rfl | rfl | rfl | rfl
      · exact wifiRun_sub args os cmd h
      · exact deviceListRun_sub args os cmd h
      · exact btRun_sub args os cmd h
      · exact volumeRun_sub args os cmd h
      · exact musicRun_sub args os cmd h
    exact ⟨hsub.1, hsub.2, rfl⟩

/-- Claim C1 witness: the concrete volume_control increase request issues
exactly the fixed, metacharacter-free command line adb shell input
keyevent 24, as a shell string. -/
theorem c1_witness :
    "adb shell input keyevent 24" ∈
      (handleRequest "volume_control" [("action", JsonValue.str "increase")]
        (fun _ => .exited 0 "" "")).2 ∧
    "adb shell input keyevent 24" ∈ reachableCommands ∧
    isShellMetaFree "adb shell input keyevent 24" = true ∧
    executeCommandMechanism "adb shell input keyevent 24" =
      Invocation.shell "adb shell input keyevent 24" :=
  ⟨by decide,
   c1_fixed_shell_commands "volume_control"
     [("action", JsonValue.str "increase")] (fun _ => .exited 0 "" "")
     "adb shell input keyevent 24" (by decide)⟩

end AdbMcp
